import Mathlib

/-!  Verification of the parameter-validation and command-formatting layer of
the `python-instrument-control` repository.

Numbers exchanged with the instruments are modelled as rationals.  A write to
the transport is modelled as a `Cmd`: the SCPI command head together with the
numeric arguments interpolated into it.  A Python method that may `raise` is
modelled as a function into `PyResult`: the list of writes it performed, in
order, and an optional error message (`some msg` when the method raised).
A method that instead `return`s an error object is modelled with an explicit
`returnedError` outcome, distinct from raising.  -/

/-- A SCPI write: command head, interpolated numeric arguments, and the unit
suffix appended directly after the last number (empty when the source appends
none). -/
structure Cmd where
  head : String
  args : List ℚ
  suffix : String
deriving DecidableEq, Repr

/-- Outcome of a Python method body: the writes it performed, in order, and
`some msg` when it raised an exception after those writes. -/
structure PyResult where
  writes : List Cmd
  error : Option String
deriving DecidableEq, Repr

/-- `True` when the method raised. -/
def PyResult.raised (r : PyResult) : Prop := r.error.isSome = true

/-- Python's `str.lower()`, character-wise ASCII lowering. -/
def pyLower (s : String) : String := ⟨s.data.map Char.toLower⟩

namespace Santec

/-! ## `src/Lasers/Santec.py`, class `TSL710` -/

def TSL710.min_wl : ℚ := 1480
def TSL710.max_wl : ℚ := 1640
def TSL710.min_spd : ℚ := 1/2
def TSL710.max_spd : ℚ := 100
def TSL710.min_del : ℚ := 0
def TSL710.max_del : ℚ := 9999/10
def TSL710.min_pow_mW : ℚ := 1/10
def TSL710.max_pow_mW : ℚ := 10
def TSL710.min_pow_dBm : ℚ := -20
def TSL710.max_pow_dBm : ℚ := 10

/-- `TSL710.set_wavelength`: writes `:wav` iff `min_wl <= lam <= max_wl`,
else raises `ValueError`. -/
def TSL710.set_wavelength (lam : ℚ) : PyResult :=
  if TSL710.min_wl ≤ lam ∧ lam ≤ TSL710.max_wl then
    ⟨[⟨":wav", [lam], ""⟩], none⟩
  else
    ⟨[], some "ValueError: lam out of range"⟩

/-- `TSL710.set_power_unit`: maps the label to its wire code and writes
`:pow:unit`; unknown labels raise before anything is written.  The label
comparison in the source is exact (`==`), not case-normalised. -/
def TSL710.set_power_unit (unit : String) : PyResult :=
  if unit = "dBm" then ⟨[⟨":pow:unit", [0], ""⟩], none⟩
  else if unit = "mW" then ⟨[⟨":pow:unit", [1], ""⟩], none⟩
  else ⟨[], some "ValueError: unit must be mW or dBm"⟩

/-- Wire code chosen by `TSL710.set_power_unit` for a label, `none` when the
label is rejected. -/
def TSL710.power_unit_to_wire (unit : String) : Option ℕ :=
  if unit = "dBm" then some 0
  else if unit = "mW" then some 1
  else none

/-- `TSL710.get_power_unit` with `verbose=True`: decodes the wire code the
instrument returned; any code other than `0` falls through to `'mW'`. -/
def TSL710.get_power_unit_verbose (unit : ℚ) : String :=
  if unit = 0 then "dBm" else "mW"

/-- `TSL710.get_trig_out`: decodes the trigger-output wire code through the
dict `{0:'none', 1:'stop', 2:'start', 3:'step'}`; a code outside the dict is
a `KeyError` (`none`). -/
def TSL710.get_trig_out (trig : ℚ) : Option String :=
  if trig = 0 then some "none"
  else if trig = 1 then some "stop"
  else if trig = 2 then some "start"
  else if trig = 3 then some "step"
  else none

/-- Wire code chosen by `TSL710.set_trig_out` for a label: the source lowers
the label first (`trig.lower()`) and looks it up in
`{'none':0, 'stop':1, 'start':2, 'step':3}`. -/
def TSL710.trig_out_to_wire (trig : String) : Option ℕ :=
  if pyLower trig = "none" then some 0
  else if pyLower trig = "stop" then some 1
  else if pyLower trig = "start" then some 2
  else if pyLower trig = "step" then some 3
  else none

/-- `TSL710.set_trig_out`: writes `:trig:outp` with the wire code when the
lowered label is in the table, else raises. -/
def TSL710.set_trig_out (trig : String) : PyResult :=
  match TSL710.trig_out_to_wire trig with
  | some n => ⟨[⟨":trig:outp", [(n : ℚ)], ""⟩], none⟩
  | none => ⟨[], some "ValueError: trig not a valid setting"⟩

/-- `TSL710.set_power`: first calls `set_power_unit` (which writes
`:pow:unit`), then range-checks `pow` against the bounds for the chosen
unit, and only then writes `:pow`.  An out-of-range power therefore raises
after the unit-selection command has already been written. -/
def TSL710.set_power (pow : ℚ) (unit : String) : PyResult :=
  match TSL710.set_power_unit unit with
  | ⟨_, some e⟩ => ⟨[], some e⟩
  | ⟨unitCmds, none⟩ =>
    if unit = "mW" then
      if TSL710.min_pow_mW ≤ pow ∧ pow ≤ TSL710.max_pow_mW then
        ⟨unitCmds ++ [⟨":pow", [pow], ""⟩], none⟩
      else
        ⟨unitCmds, some "ValueError: pow out of range for mW"⟩
    else if unit = "dBm" then
      if TSL710.min_pow_dBm ≤ pow ∧ pow ≤ TSL710.max_pow_dBm then
        ⟨unitCmds ++ [⟨":pow", [pow], ""⟩], none⟩
      else
        ⟨unitCmds, some "ValueError: pow out of range for dBm"⟩
    else
      ⟨unitCmds, some "ValueError: unit must be mW or dBm"⟩

/-- `TSL710.__init__` identity check: the mismatch message is printed only
when the vendor field differs from `'Santec'` AND the model field differs
from `'TSL-710'` (the source joins the two conditions with `and`). -/
def TSL710.init_warns (idn0 idn1 : String) : Bool :=
  idn0 ≠ "Santec" ∧ idn1 ≠ "TSL-710"

end Santec

namespace Santec2

/-! ## `src/Lasers/Santec2.py`, classes `TSL`, `TSL710`, `TSL770` -/

/-- Per-model power limits set by the subclasses of `TSL`. -/
structure PowLimits where
  min_pow_mW : ℚ
  max_pow_mW : ℚ
  min_pow_dBm : ℚ
  max_pow_dBm : ℚ
deriving DecidableEq, Repr

/-- Limits set by `Santec2.TSL710.__init__`. -/
def TSL710.powLimits : PowLimits := ⟨1/100, 10, -20, 10⟩

/-- Limits set by `Santec2.TSL770.__init__`. -/
def TSL770.powLimits : PowLimits := ⟨1/5, 19953/1000, -7, 13⟩

/-- `Santec2.TSL.set_power`: validates against the bounds chosen by the
mirrored `pow_unit` state (`'mW'` selects the mW bounds, anything else the
dBm bounds) and only writes `:pow` when the check passes; nothing is written
before an out-of-range value raises. -/
def TSL.set_power (L : PowLimits) (pow_unit : String) (pow : ℚ) : PyResult :=
  if pow_unit = "mW" then
    if pow < L.min_pow_mW ∨ L.max_pow_mW < pow then
      ⟨[], some "ValueError: pow out of range for mW"⟩
    else
      ⟨[⟨":pow", [pow], ""⟩], none⟩
  else
    if pow < L.min_pow_dBm ∨ L.max_pow_dBm < pow then
      ⟨[], some "ValueError: pow out of range for dBm"⟩
    else
      ⟨[⟨":pow", [pow], ""⟩], none⟩

end Santec2

namespace Keithley

/-! ## `src/SourceMeters/Keithley.py`, classes `KeithleySourceMeter`,
`Keithley2420` -/

/-- Limits set by `Keithley2420.__init__`. -/
def min_volt : ℚ := -63
def max_volt : ℚ := 63
def min_curr : ℚ := -63/20
def max_curr : ℚ := 63/20

/-- The sourcemeter's output mode, the one piece of instrument state the
clamp-limit operations depend on. -/
inductive SMode where
  | volt
  | curr
deriving DecidableEq, Repr

/-- Reply of the `:source:func:mode?` query read by `get_source_mode`: the
instrument reports its mode as the canonical uppercase short form. -/
def sourceModeReply : SMode → String
  | .volt => "VOLT"
  | .curr => "CURR"

/-- One interaction with the bus: a query or a write. -/
inductive BusOp where
  | queryOp (cmd : String)
  | writeOp (cmd : Cmd)
deriving DecidableEq, Repr

/-- Routing shared by `get_clamp_limit`, `set_clamp_limit` and `reset_clamp`:
a `'VOLT'` reply selects the complementary measure type `'curr'`, any other
reply selects `'volt'`. -/
def measType (mode : SMode) : String :=
  if sourceModeReply mode = "VOLT" then "curr" else "volt"

/-- `set_source_mode`: rejects labels whose lowering is neither `'volt'` nor
`'curr'`, otherwise writes `:source:func:mode` and the instrument adopts the
corresponding mode. -/
def set_source_mode (mode : String) : Except String SMode :=
  if pyLower mode = "volt" then .ok .volt
  else if pyLower mode = "curr" then .ok .curr
  else .error "ValueError: mode must be volt or curr"

/-- `get_clamp_limit`: first queries the source mode, then queries the
complementary protection level. -/
def get_clamp_limit (mode : SMode) : List BusOp :=
  [.queryOp ":source:func:mode?",
   .queryOp (":" ++ measType mode ++ ":prot:level?")]

/-- Bus trace plus optional raised error, for the stateful Keithley
operations. -/
structure TraceResult where
  ops : List BusOp
  error : Option String
deriving DecidableEq, Repr

/-- `set_clamp_limit`: first queries the source mode; the range guard in the
source is `limit < min and limit > max` (a conjunction), after which
`:{meas_type}:prot` is written. -/
def set_clamp_limit (mode : SMode) (limit : ℚ) : TraceResult :=
  let q := BusOp.queryOp ":source:func:mode?"
  if sourceModeReply mode = "VOLT" then
    if limit < min_curr ∧ max_curr < limit then
      ⟨[q], some "ValueError: current compliance out of range"⟩
    else
      ⟨[q, .writeOp ⟨":" ++ measType mode ++ ":prot", [limit], ""⟩], none⟩
  else
    if limit < min_volt ∧ max_volt < limit then
      ⟨[q], some "ValueError: voltage compliance out of range"⟩
    else
      ⟨[q, .writeOp ⟨":" ++ measType mode ++ ":prot", [limit], ""⟩], none⟩

/-- `reset_clamp`: first queries the source mode, then writes
`:{meas_type}:prot def`. -/
def reset_clamp (mode : SMode) : List BusOp :=
  [.queryOp ":source:func:mode?",
   .writeOp ⟨":" ++ measType mode ++ ":prot def", [], ""⟩]

/-- `KeithleySourceMeter.__init__` identity check: warns iff the vendor
field differs from `'KEITHLEY INSTRUMENTS INC.'` (the model field is not
checked by the base class). -/
def init_warns (idn0 : String) : Bool :=
  idn0 ≠ "KEITHLEY INSTRUMENTS INC."

end Keithley

namespace Agilent

/-! ## `src/MeasurementSystems/Agilent.py` -/

/-- Wavelength limits set by `Agilent81600B.__init__` (meters). -/
def Agilent81600B.min_wl : ℚ := 1260/1000000000
def Agilent81600B.max_wl : ℚ := 1640/1000000000

/-- Outcome of a Python method distinguishing a normal return (with the
writes performed), a raised exception, and a `ValueError` object returned as
the method's result without being raised. -/
inductive Outcome where
  | wrote (cmds : List Cmd)
  | raised (msg : String)
  | returnedError (msg : String)
deriving DecidableEq, Repr

/-- `AgilentLaser.set_wavelength`: out-of-range wavelengths raise; in-range
ones write `:sour{slot}:wav` with the `wl_unit` suffix. -/
def AgilentLaser.set_wavelength (slot : ℕ) (wl_unit : String)
    (min_wl max_wl lam : ℚ) : Outcome :=
  if lam < min_wl ∨ max_wl < lam then
    .raised "ValueError: lam out of range"
  else
    .wrote [⟨":sour" ++ toString slot ++ ":wav", [lam], wl_unit⟩]

/-- `AgilentLaser.set_wave_sweep_start`: the out-of-range branch is
`return ValueError(...)` in the source, so the error object is returned as
the result instead of being raised; in-range values write
`:sour{slot}:wav:swe:star`. -/
def AgilentLaser.set_wave_sweep_start (slot : ℕ) (wl_unit : String)
    (min_wl max_wl lam : ℚ) : Outcome :=
  if lam < min_wl ∨ max_wl < lam then
    .returnedError "ValueError: lam out of range"
  else
    .wrote [⟨":sour" ++ toString slot ++ ":wav:swe:star", [lam], wl_unit⟩]

/-- `AgilentLaser.set_wave_sweep_stop`: same `return ValueError(...)` shape
as `set_wave_sweep_start`. -/
def AgilentLaser.set_wave_sweep_stop (slot : ℕ) (wl_unit : String)
    (min_wl max_wl lam : ℚ) : Outcome :=
  if lam < min_wl ∨ max_wl < lam then
    .returnedError "ValueError: lam out of range"
  else
    .wrote [⟨":sour" ++ toString slot ++ ":wav:swe:stop", [lam], wl_unit⟩]

/-- Python's `round` to an integer: round half to even. -/
def roundHalfEven (q : ℚ) : ℤ :=
  if q - ⌊q⌋ < 1/2 then ⌊q⌋
  else if (1 : ℚ)/2 < q - ⌊q⌋ then ⌊q⌋ + 1
  else if ⌊q⌋ % 2 = 0 then ⌊q⌋ else ⌊q⌋ + 1

/-- Python's `round(power, -1)`: round to the nearest multiple of ten, ties
to the even multiple. -/
def pyRound10 (q : ℚ) : ℤ := 10 * roundHalfEven (q / 10)

/-- `AgilentPowerMeter.set_power_range`: rounds to a multiple of ten, clamps
the rounded value into `[-110, 30]`, and writes `:sens{slot}:pow:rang` with
the `DBM` suffix; no input is ever rejected. -/
def AgilentPowerMeter.set_power_range (slot : ℕ) (power : ℚ) : PyResult :=
  let r : ℤ := pyRound10 power
  let r2 : ℤ := if r < -110 then -110 else if 30 < r then 30 else r
  ⟨[⟨":sens" ++ toString slot ++ ":pow:rang", [(r2 : ℚ)], "DBM"⟩], none⟩

end Agilent

namespace KeysightOPM

/-! ## `src/OpticalPowerMeters/Keysight.py`, class `N7744A` -/

def N7744A.min_wl : ℚ := 1250/1000000000
def N7744A.max_wl : ℚ := 1650/1000000000

/-- `N7744A.set_wavelength`: a channel outside `range(1, 5)` or an
out-of-range wavelength makes the method `return ValueError(...)` (the error
object becomes the result, nothing is raised); otherwise it writes
`:sens{ch}:pow:wav`. -/
def N7744A.set_wavelength (lam : ℚ) (ch : ℤ) : Agilent.Outcome :=
  if 1 ≤ ch ∧ ch ≤ 4 then
    if N7744A.min_wl ≤ lam ∧ lam ≤ N7744A.max_wl then
      .wrote [⟨":sens" ++ toString ch ++ ":pow:wav", [lam], ""⟩]
    else
      .returnedError "ValueError: lam out of range"
  else
    .returnedError "ValueError: ch must be 1, 2, 3, or 4"

/-- `N7744A.get_power_unit` with `verbose=True`: code `1` decodes to `'W'`
and every other code falls through to `'dBm'`. -/
def N7744A.get_power_unit_verbose (unit : ℚ) : String :=
  if unit = 1 then "W" else "dBm"

/-- `N7744A.__init__` identity check: warns iff the vendor field differs
from `'Keysight Technologies'` AND the model field differs from `'N7744A'`
(the source joins the two conditions with `and`). -/
def N7744A.init_warns (idn0 idn1 : String) : Bool :=
  idn0 ≠ "Keysight Technologies" ∧ idn1 ≠ "N7744A"

end KeysightOPM

namespace Yokogawa

/-! ## `src/SpectrumAnalyzers/Yokogawa.py`, class `YokogawaOSA` -/

/-- `YokogawaOSA.get_sweep_mode`: codes `1`, `2`, `3` decode to `'single'`,
`'repeat'`, `'auto'`; every other code falls through to `'segment'`. -/
def get_sweep_mode (mode : ℚ) : String :=
  if mode = 1 then "single"
  else if mode = 2 then "repeat"
  else if mode = 3 then "auto"
  else "segment"

/-- `YokogawaOSA.set_sweep_mode`: accepts a label whose lowering is in
`['single', 'repeat', 'auto', 'segment']` and writes `:init:smode` with the
original (unlowered) label, else raises. -/
def set_sweep_mode (mode : String) : PyResult :=
  if pyLower mode = "single" ∨ pyLower mode = "repeat" ∨
      pyLower mode = "auto" ∨ pyLower mode = "segment" then
    ⟨[⟨":init:smode " ++ mode, [], ""⟩], none⟩
  else
    ⟨[], some "ValueError: mode not one of the four accepted modes"⟩

end Yokogawa

namespace KeysightSA

/-! ## `src/SignalAnalyzers/Keysight.py`, class `KeysightSA` -/

/-- `numpy.linspace(start, stop, num)` as used by `get_trace`: `num`
uniformly spaced points from `start` to `stop` inclusive; a single point is
just `[start]`. -/
def linspace (start stop : ℚ) (num : ℕ) : List ℚ :=
  if num = 1 then [start]
  else (List.range num).map
    fun i : ℕ => start + (i : ℚ) * (stop - start) / ((num : ℚ) - 1)

/-- The frequency axis `get_trace` derives for a trace of `n` samples from
the `:freq:start?` and `:freq:stop?` replies. -/
def trace_axis (f1 f2 : ℚ) (n : ℕ) : List ℚ := linspace f1 f2 n

end KeysightSA

namespace Keysight8164B

/-! ## `src/MeasurementSystems/Keysight.py`, class `Keysight8164B` -/

/-- `Keysight8164B.__init__` identity check: warns iff the vendor field
differs from `'Keysight Technologies'` AND the model field differs from
`'8164B'` (the source joins the two conditions with `and`). -/
def init_warns (idn0 idn1 : String) : Bool :=
  idn0 ≠ "Keysight Technologies" ∧ idn1 ≠ "8164B"

end Keysight8164B

namespace Santec

/-- The observable result of `TSL710.__init__` on a two-field identification
reply: whether the advisory mismatch message was printed, and the wavelength
limits the binding is created with. -/
structure Binding where
  warned : Bool
  min_wl : ℚ
  max_wl : ℚ
deriving DecidableEq, Repr

/-- `TSL710.__init__`: always completes, stores the declared limits
unconditionally, and prints the mismatch message exactly when `init_warns`
holds. -/
def TSL710.init (idn0 idn1 : String) : Binding :=
  ⟨TSL710.init_warns idn0 idn1, TSL710.min_wl, TSL710.max_wl⟩

end Santec

namespace Agilent

/-- The value `set_power_range` interpolates into the command: the rounded
power clamped into `[-110, 30]`, mirroring the source's reassignments of
`power`. -/
def clampedRound (q : ℚ) : ℤ :=
  if pyRound10 q < -110 then -110
  else if 30 < pyRound10 q then 30
  else pyRound10 q

end Agilent

/-! ## Helper lemmas about Python's banker's rounding -/

lemma roundHalfEven_dist (x : ℚ) : |x - Agilent.roundHalfEven x| ≤ 1/2 := by
  have h0 : (⌊x⌋ : ℚ) ≤ x := Int.floor_le x
  have h1 : x < ⌊x⌋ + 1 := Int.lt_floor_add_one x
  unfold Agilent.roundHalfEven
  split_ifs with ha hb hc
  · rw [abs_of_nonneg (by linarith)]
    linarith
  · push_cast
    rw [abs_of_nonpos (by linarith)]
    linarith
  · rw [abs_of_nonneg (by linarith)]
    linarith
  · push_cast
    rw [abs_of_nonpos (by linarith)]
    linarith

lemma roundHalfEven_nearest (x : ℚ) (k : ℤ) :
    |x - Agilent.roundHalfEven x| ≤ |x - k| := by
  by_cases hk : k = Agilent.roundHalfEven x
  · rw [hk]
  · have hd := roundHalfEven_dist x
    have hik : (1 : ℚ) ≤ |(Agilent.roundHalfEven x : ℚ) - k| := by
      have h1 : (1 : ℤ) ≤ |Agilent.roundHalfEven x - k| :=
        Int.one_le_abs (by omega)
      have h2 : ((1 : ℤ) : ℚ) ≤ ((|Agilent.roundHalfEven x - k| : ℤ) : ℚ) := by
        exact_mod_cast h1
      push_cast at h2
      convert h2 using 2
    have htri : |(Agilent.roundHalfEven x : ℚ) - k| ≤
        |x - Agilent.roundHalfEven x| + |x - k| := by
      calc |(Agilent.roundHalfEven x : ℚ) - k|
          = |(x - k) - (x - Agilent.roundHalfEven x)| := by ring_nf
        _ ≤ |x - k| + |x - Agilent.roundHalfEven x| := abs_sub _ _
        _ = |x - Agilent.roundHalfEven x| + |x - k| := by ring
    linarith

lemma pyRound10_nearest (p : ℚ) (m : ℤ) (hm : (10 : ℤ) ∣ m) :
    |p - Agilent.pyRound10 p| ≤ |p - m| := by
  obtain ⟨k, rfl⟩ := hm
  have h := roundHalfEven_nearest (p / 10) k
  unfold Agilent.pyRound10
  rw [show p - (10 * Agilent.roundHalfEven (p/10) : ℤ) =
        10 * (p/10 - Agilent.roundHalfEven (p/10)) by push_cast; ring,
      show p - ((10 * k : ℤ) : ℚ) = 10 * (p/10 - k) by push_cast; ring,
      abs_mul, abs_mul]
  have h10 : |(10 : ℚ)| = 10 := by norm_num
  rw [h10]
  linarith

/-! ## Claim theorems -/

/-- C1: the claim that every bounded-parameter setter sends the wire command
iff `min <= v <= max` fails on `KeithleySourceMeter.set_clamp_limit`: its
guard `limit < min and limit > max` is unsatisfiable, so with the source mode
at voltage a compliance limit of 100 A — far outside the declared current
bounds of ±3.15 A — is written to the instrument instead of raising. -/
theorem C1_set_clamp_limit_accepts_out_of_range :
    Keithley.set_clamp_limit Keithley.SMode.volt 100 =
      ⟨[Keithley.BusOp.queryOp ":source:func:mode?",
        Keithley.BusOp.writeOp ⟨":curr:prot", [100], ""⟩], none⟩ ∧
    ¬ (Keithley.min_curr ≤ 100 ∧ (100 : ℚ) ≤ Keithley.max_curr) := by
  constructor
  · have h : ¬ ((100 : ℚ) < Keithley.min_curr ∧ Keithley.max_curr < 100) := by
      rintro ⟨a, _⟩
      rw [Keithley.min_curr] at a
      linarith
    simp only [Keithley.set_clamp_limit, Keithley.sourceModeReply,
      Keithley.measType, if_true]
    rw [if_neg h]
    rfl
  · rintro ⟨_, b⟩
    rw [Keithley.max_curr] at b
    linarith

/-- C2: the axis `get_trace` derives from `(start, stop, sample_count)` has
exactly `sample_count` entries, starts at `start`, ends at `stop`, follows
the linear-interpolation formula for `sample_count >= 2`, equals `[start]`
for `sample_count == 1`, and the concrete example `(1500, 1600, 5)` yields
`[1500, 1525, 1550, 1575, 1600]`. -/
theorem C2_trace_axis_spec (f1 f2 : ℚ) (n : ℕ) :
    (2 ≤ n →
      (KeysightSA.trace_axis f1 f2 n).length = n ∧
      (KeysightSA.trace_axis f1 f2 n).head? = some f1 ∧
      (KeysightSA.trace_axis f1 f2 n).getLast? = some f2 ∧
      ∀ i : ℕ, i < n →
        (KeysightSA.trace_axis f1 f2 n)[i]? =
          some (f1 + (i : ℚ) * (f2 - f1) / ((n : ℚ) - 1))) ∧
    KeysightSA.trace_axis f1 f2 1 = [f1] ∧
    KeysightSA.trace_axis 1500 1600 5 = [1500, 1525, 1550, 1575, 1600] := by
  refine ⟨?_, ?_, ?_⟩
  · intro hn
    have hne : n ≠ 1 := by omega
    have hpos : 0 < n := by omega
    have hcn : (2 : ℚ) ≤ (n : ℚ) := by exact_mod_cast hn
    have hcast : ((n : ℚ) - 1) ≠ 0 := by linarith
    have hlen : (KeysightSA.trace_axis f1 f2 n).length = n := by
      simp only [KeysightSA.trace_axis, KeysightSA.linspace, if_neg hne,
        List.length_map, List.length_range]
    have hget : ∀ i : ℕ, i < n →
        (KeysightSA.trace_axis f1 f2 n)[i]? =
          some (f1 + (i : ℚ) * (f2 - f1) / ((n : ℚ) - 1)) := by
      intro i hi
      simp only [KeysightSA.trace_axis, KeysightSA.linspace, if_neg hne,
        List.getElem?_map, List.getElem?_range hi]
      rfl
    refine ⟨hlen, ?_, ?_, hget⟩
    · rw [List.head?_eq_getElem?, hget 0 hpos]
      norm_num
    · rw [List.getLast?_eq_getElem?, hlen, hget (n-1) (by omega)]
      have h1 : ((n - 1 : ℕ) : ℚ) = (n : ℚ) - 1 := by
        push_cast [Nat.cast_sub hpos]
        ring
      rw [h1]
      congr 1
      field_simp
  · simp [KeysightSA.trace_axis, KeysightSA.linspace]
  · norm_num [KeysightSA.trace_axis, KeysightSA.linspace, List.range_succ]

/-- Witness for C2 at `start=1500, stop=1600, sample_count=5`. -/
theorem C2_trace_axis_spec_witness :
    (KeysightSA.trace_axis 1500 1600 5).getLast? = some 1600 :=
  ((C2_trace_axis_spec 1500 1600 5).1 (by decide)).2.2.1

/-- C3: for every entry of the power-unit table `{dBm:0, mW:1}` and of the
trigger-output table `{none:0, stop:1, start:2, step:3}`, translating the
label to its wire code and back yields the label, and translating the code
to its label and back yields the code. -/
theorem C3_enum_roundtrip :
    ((Santec.TSL710.power_unit_to_wire "dBm").map
        (fun n : ℕ => Santec.TSL710.get_power_unit_verbose (n : ℚ)) =
      some "dBm") ∧
    ((Santec.TSL710.power_unit_to_wire "mW").map
        (fun n : ℕ => Santec.TSL710.get_power_unit_verbose (n : ℚ)) =
      some "mW") ∧
    (Santec.TSL710.power_unit_to_wire (Santec.TSL710.get_power_unit_verbose 0)
      = some 0) ∧
    (Santec.TSL710.power_unit_to_wire (Santec.TSL710.get_power_unit_verbose 1)
      = some 1) ∧
    ((Santec.TSL710.trig_out_to_wire "none").bind
        (fun n : ℕ => Santec.TSL710.get_trig_out (n : ℚ)) = some "none") ∧
    ((Santec.TSL710.trig_out_to_wire "stop").bind
        (fun n : ℕ => Santec.TSL710.get_trig_out (n : ℚ)) = some "stop") ∧
    ((Santec.TSL710.trig_out_to_wire "start").bind
        (fun n : ℕ => Santec.TSL710.get_trig_out (n : ℚ)) = some "start") ∧
    ((Santec.TSL710.trig_out_to_wire "step").bind
        (fun n : ℕ => Santec.TSL710.get_trig_out (n : ℚ)) = some "step") ∧
    ((Santec.TSL710.get_trig_out 0).bind Santec.TSL710.trig_out_to_wire
      = some 0) ∧
    ((Santec.TSL710.get_trig_out 1).bind Santec.TSL710.trig_out_to_wire
      = some 1) ∧
    ((Santec.TSL710.get_trig_out 2).bind Santec.TSL710.trig_out_to_wire
      = some 2) ∧
    ((Santec.TSL710.get_trig_out 3).bind Santec.TSL710.trig_out_to_wire
      = some 3) := by
  decide

/-- C4: the claim that an unknown wire code returned by the instrument makes
the get-direction translator raise fails on the code: `N7744A.get_power_unit`
decodes the unknown code 2 to the default `'dBm'`,
`YokogawaOSA.get_sweep_mode` decodes the unknown code 7 to the fall-through
`'segment'`, and `TSL710.get_power_unit` decodes the unknown code 5 to the
default `'mW'` — all silently. -/
theorem C4_unknown_wire_code_returns_default :
    KeysightOPM.N7744A.get_power_unit_verbose 2 = "dBm" ∧
    Yokogawa.get_sweep_mode 7 = "segment" ∧
    Santec.TSL710.get_power_unit_verbose 5 = "mW" := by
  refine ⟨?_, ?_, ?_⟩
  · norm_num [KeysightOPM.N7744A.get_power_unit_verbose]
  · norm_num [Yokogawa.get_sweep_mode]
  · norm_num [Santec.TSL710.get_power_unit_verbose]

/-- C5: after the source mode is set to voltage every clamp-limit operation
first queries the source mode and then routes to the current-limit command
`:curr:prot...`, and after it is set to current every clamp-limit operation
routes to the voltage-limit command `:volt:prot...`. -/
theorem C5_clamp_routing (limit : ℚ) :
    Keithley.set_source_mode "volt" = Except.ok Keithley.SMode.volt ∧
    Keithley.set_source_mode "curr" = Except.ok Keithley.SMode.curr ∧
    Keithley.get_clamp_limit Keithley.SMode.volt =
      [Keithley.BusOp.queryOp ":source:func:mode?",
       Keithley.BusOp.queryOp ":curr:prot:level?"] ∧
    Keithley.get_clamp_limit Keithley.SMode.curr =
      [Keithley.BusOp.queryOp ":source:func:mode?",
       Keithley.BusOp.queryOp ":volt:prot:level?"] ∧
    Keithley.set_clamp_limit Keithley.SMode.volt limit =
      ⟨[Keithley.BusOp.queryOp ":source:func:mode?",
        Keithley.BusOp.writeOp ⟨":curr:prot", [limit], ""⟩], none⟩ ∧
    Keithley.set_clamp_limit Keithley.SMode.curr limit =
      ⟨[Keithley.BusOp.queryOp ":source:func:mode?",
        Keithley.BusOp.writeOp ⟨":volt:prot", [limit], ""⟩], none⟩ ∧
    Keithley.reset_clamp Keithley.SMode.volt =
      [Keithley.BusOp.queryOp ":source:func:mode?",
       Keithley.BusOp.writeOp ⟨":curr:prot def", [], ""⟩] ∧
    Keithley.reset_clamp Keithley.SMode.curr =
      [Keithley.BusOp.queryOp ":source:func:mode?",
       Keithley.BusOp.writeOp ⟨":volt:prot def", [], ""⟩] := by
  refine ⟨by rfl, by rfl, by decide, by decide, ?_, ?_, by decide,
    by decide⟩
  · have h : ¬ (limit < Keithley.min_curr ∧ Keithley.max_curr < limit) := by
      rintro ⟨a, b⟩
      rw [Keithley.min_curr] at a
      rw [Keithley.max_curr] at b
      linarith
    simp only [Keithley.set_clamp_limit, Keithley.sourceModeReply,
      Keithley.measType, if_true]
    rw [if_neg h]
    rfl
  · have h : ¬ (limit < Keithley.min_volt ∧ Keithley.max_volt < limit) := by
      rintro ⟨a, b⟩
      rw [Keithley.min_volt] at a
      rw [Keithley.max_volt] at b
      linarith
    simp only [Keithley.set_clamp_limit, Keithley.sourceModeReply,
      Keithley.measType]
    rw [if_neg h]
    rfl

/-- C6: the claim that a failing bounded-range setter has written nothing to
the transport fails on `TSL710.set_power` (`src/Lasers/Santec.py`): for the
out-of-range power 100 mW the method raises only after the unit-selection
command `:pow:unit 1` has already been written. -/
theorem C6_set_power_writes_before_range_error :
    Santec.TSL710.set_power 100 "mW" =
      ⟨[⟨":pow:unit", [1], ""⟩],
        some "ValueError: pow out of range for mW"⟩ := by
  norm_num [Santec.TSL710.set_power, Santec.TSL710.set_power_unit,
    Santec.TSL710.min_pow_mW, Santec.TSL710.max_pow_mW]
  decide

/-- C6 (amended): setters that validate before writing — `TSL.set_power` of
`src/Lasers/Santec2.py` and `TSL710.set_wavelength` — write nothing when they
raise a range error; but `TSL710.set_power` of `src/Lasers/Santec.py` sends
the auxiliary `:pow:unit` command before its range check, so an out-of-range
power raises with that one command already written. -/
theorem C6_amended_no_partial_write (L : Santec2.PowLimits) (u : String)
    (p : ℚ) :
    ((Santec2.TSL.set_power L u p).error.isSome = true →
      (Santec2.TSL.set_power L u p).writes = []) ∧
    ((Santec.TSL710.set_wavelength p).error.isSome = true →
      (Santec.TSL710.set_wavelength p).writes = []) ∧
    (¬ (Santec.TSL710.min_pow_mW ≤ p ∧ p ≤ Santec.TSL710.max_pow_mW) →
      Santec.TSL710.set_power p "mW" =
        ⟨[⟨":pow:unit", [1], ""⟩],
          some "ValueError: pow out of range for mW"⟩) := by
  refine ⟨?_, ?_, ?_⟩
  · unfold Santec2.TSL.set_power
    split_ifs <;> simp
  · unfold Santec.TSL710.set_wavelength
    split_ifs <;> simp
  · intro h
    have hpu : Santec.TSL710.set_power_unit "mW" =
        ⟨[⟨":pow:unit", [1], ""⟩], none⟩ := by decide
    unfold Santec.TSL710.set_power
    rw [hpu]
    dsimp only
    rw [if_pos rfl, if_neg h]

/-- Witness for C6 (amended) at `pow = 100 mW` on the Santec.py variant. -/
theorem C6_amended_no_partial_write_witness :
    Santec.TSL710.set_power 100 "mW" =
      ⟨[⟨":pow:unit", [1], ""⟩],
        some "ValueError: pow out of range for mW"⟩ :=
  (C6_amended_no_partial_write Santec2.TSL710.powLimits "mW" 100).2.2
    (by norm_num [Santec.TSL710.min_pow_mW, Santec.TSL710.max_pow_mW])

/-- C7: the claim that every out-of-range value makes the setter raise fails
on the code: `AgilentLaser.set_wave_sweep_start`,
`AgilentLaser.set_wave_sweep_stop` and `N7744A.set_wavelength` execute
`return ValueError(...)`, handing the error object back as the method's
result — at wavelength 1 m (bounds are in the nanometer range) each returns
normally instead of raising. -/
theorem C7_out_of_range_returns_error_value :
    Agilent.AgilentLaser.set_wave_sweep_start 1 "m"
        Agilent.Agilent81600B.min_wl Agilent.Agilent81600B.max_wl 1 =
      Agilent.Outcome.returnedError "ValueError: lam out of range" ∧
    Agilent.AgilentLaser.set_wave_sweep_stop 1 "m"
        Agilent.Agilent81600B.min_wl Agilent.Agilent81600B.max_wl 1 =
      Agilent.Outcome.returnedError "ValueError: lam out of range" ∧
    KeysightOPM.N7744A.set_wavelength 1 1 =
      Agilent.Outcome.returnedError "ValueError: lam out of range" := by
  refine ⟨?_, ?_, ?_⟩
  · norm_num [Agilent.AgilentLaser.set_wave_sweep_start,
      Agilent.Agilent81600B.min_wl, Agilent.Agilent81600B.max_wl]
  · norm_num [Agilent.AgilentLaser.set_wave_sweep_stop,
      Agilent.Agilent81600B.min_wl, Agilent.Agilent81600B.max_wl]
  · norm_num [KeysightOPM.N7744A.set_wavelength,
      KeysightOPM.N7744A.min_wl, KeysightOPM.N7744A.max_wl]

/-- C8: the claim that label input is case-insensitive in every translator
fails on `TSL710.set_power_unit`: the canonical label `'dBm'` maps to wire
code 0, but `'DBM'` raises instead of mapping to the same code. -/
theorem C8_power_unit_case_sensitive :
    Santec.TSL710.set_power_unit "dBm" =
      ⟨[⟨":pow:unit", [0], ""⟩], none⟩ ∧
    Santec.TSL710.set_power_unit "DBM" =
      ⟨[], some "ValueError: unit must be mW or dBm"⟩ := by
  decide

/-- C8 (amended): translators that lower their input before the lookup —
`TSL710.set_trig_out` and `YokogawaOSA.set_sweep_mode` — accept a label in
any letter case and map it to the same wire command; the power-unit
translator `TSL710.set_power_unit` instead matches labels exactly and
rejects every spelling other than `'dBm'`/`'mW'`. -/
theorem C8_amended_lowered_translators (s : String) :
    (pyLower s = "none" → Santec.TSL710.trig_out_to_wire s = some 0) ∧
    (pyLower s = "stop" → Santec.TSL710.trig_out_to_wire s = some 1) ∧
    (pyLower s = "start" → Santec.TSL710.trig_out_to_wire s = some 2) ∧
    (pyLower s = "step" → Santec.TSL710.trig_out_to_wire s = some 3) ∧
    ((pyLower s = "single" ∨ pyLower s = "repeat" ∨ pyLower s = "auto" ∨
        pyLower s = "segment") →
      Yokogawa.set_sweep_mode s =
        ⟨[⟨":init:smode " ++ s, [], ""⟩], none⟩) ∧
    (s ≠ "dBm" ∧ s ≠ "mW" →
      Santec.TSL710.set_power_unit s =
        ⟨[], some "ValueError: unit must be mW or dBm"⟩) := by
  refine ⟨?_, ?_, ?_, ?_, ?_, ?_⟩ <;> intro h
  · simp [Santec.TSL710.trig_out_to_wire, h]
  · simp [Santec.TSL710.trig_out_to_wire, h]
  · simp [Santec.TSL710.trig_out_to_wire, h]
  · simp [Santec.TSL710.trig_out_to_wire, h]
  · simp only [Yokogawa.set_sweep_mode, if_pos h]
  · simp [Santec.TSL710.set_power_unit, h.1, h.2]

/-- Witness for C8 (amended) at the uppercase label `'NONE'`. -/
theorem C8_amended_lowered_translators_witness :
    Santec.TSL710.trig_out_to_wire "NONE" = some 0 :=
  (C8_amended_lowered_translators "NONE").1 (by decide)

/-- C9: the claim that every mismatching identification reply produces a
warning fails on `TSL710.__init__`: its check joins the vendor and model
comparisons with `and`, so the reply `('Santec', 'FAKE-123')` — whose model
field does not match `'TSL-710'` — prints no warning at all. -/
theorem C9_partial_mismatch_no_warning :
    Santec.TSL710.init_warns "Santec" "FAKE-123" = false ∧
    "FAKE-123" ≠ "TSL-710" := by
  decide

/-- C9 (amended): construction always completes normally with the declared
limits, whatever the identification reply; but the warning is printed only
when every field checked by the class mismatches — both fields in the
bindings that join the vendor and model comparisons with `and` (Santec
TSL710, Keysight 8164B, Keysight N7744A), and the vendor field alone for
`KeithleySourceMeter`. -/
theorem C9_amended_identity_advisory (idn0 idn1 : String) :
    (Santec.TSL710.init idn0 idn1).min_wl = 1480 ∧
    (Santec.TSL710.init idn0 idn1).max_wl = 1640 ∧
    ((Santec.TSL710.init idn0 idn1).warned = true ↔
      idn0 ≠ "Santec" ∧ idn1 ≠ "TSL-710") ∧
    (Keithley.init_warns idn0 = true ↔
      idn0 ≠ "KEITHLEY INSTRUMENTS INC.") ∧
    (Keysight8164B.init_warns idn0 idn1 = true ↔
      idn0 ≠ "Keysight Technologies" ∧ idn1 ≠ "8164B") ∧
    (KeysightOPM.N7744A.init_warns idn0 idn1 = true ↔
      idn0 ≠ "Keysight Technologies" ∧ idn1 ≠ "N7744A") := by
  refine ⟨rfl, rfl, ?_, ?_, ?_, ?_⟩
  · simp [Santec.TSL710.init, Santec.TSL710.init_warns]
  · simp [Keithley.init_warns]
  · simp [Keysight8164B.init_warns]
  · simp [KeysightOPM.N7744A.init_warns]

/-- C10: `AgilentPowerMeter.set_power_range` never raises and never rejects:
it writes exactly one `:sens{slot}:pow:rang` command with the `DBM` suffix,
whose value is the input rounded to a nearest multiple of ten and then
clamped into `[-110, 30]`. -/
theorem C10_set_power_range_total (slot : ℕ) (p : ℚ) :
    Agilent.AgilentPowerMeter.set_power_range slot p =
      ⟨[⟨":sens" ++ toString slot ++ ":pow:rang",
        [((Agilent.clampedRound p : ℤ) : ℚ)], "DBM"⟩], none⟩ ∧
    (10 : ℤ) ∣ Agilent.clampedRound p ∧
    -110 ≤ Agilent.clampedRound p ∧
    Agilent.clampedRound p ≤ 30 ∧
    ∀ m : ℤ, (10 : ℤ) ∣ m →
      |p - (Agilent.pyRound10 p : ℚ)| ≤ |p - (m : ℚ)| := by
  refine ⟨rfl, ?_, ?_, ?_, fun m hm => pyRound10_nearest p m hm⟩
  · unfold Agilent.clampedRound
    split_ifs
    · exact ⟨-11, by norm_num⟩
    · exact ⟨3, by norm_num⟩
    · exact ⟨Agilent.roundHalfEven (p / 10), rfl⟩
  · unfold Agilent.clampedRound
    split_ifs <;> omega
  · unfold Agilent.clampedRound
    split_ifs <;> omega

/-- Witness for C10: 20 is a multiple of ten no closer to 17 than the
rounded value. -/
theorem C10_set_power_range_total_witness :
    |(17 : ℚ) - (Agilent.pyRound10 17 : ℚ)| ≤ |(17 : ℚ) - ((20 : ℤ) : ℚ)| :=
  (C10_set_power_range_total 1 17).2.2.2.2 20 ⟨2, rfl⟩
